import Mathlib

/-
Shallow embedding of the model abstraction layer of tensorflow-federated
(files `python/learning/model.py`, `python/learning/model_utils.py`, and the
retryable-error classifier exercised by
`python/core/impl/execution_contexts/async_execution_context_test.py`).

Variables are modelled as indices into a store of tensors, so that the
aliasing of variable handles by `ModelWeights.from_model` is visible.
-/

set_option autoImplicit false

namespace TffSpec

/-- Element dtypes of tensors (a representative fragment). -/
inductive Dtype where
  | float32
  | int32
deriving DecidableEq, Repr

/-- Shape and dtype of a tensor, as used by `tf.TensorSpec`. -/
structure TensorSpec where
  shape : List Nat
  dtype : Dtype
deriving DecidableEq, Repr

/-- A concrete tensor value: shape, dtype and flattened data. -/
structure Tensor where
  shape : List Nat
  dtype : Dtype
  data : List Int
deriving DecidableEq, Repr

/-- The shape/dtype signature of a tensor. -/
def Tensor.spec (t : Tensor) : TensorSpec := ⟨t.shape, t.dtype⟩

/-- Number of scalar elements of a shape. -/
def numel (shape : List Nat) : Nat := shape.foldr (· * ·) 1

/-- A zero-initialized tensor of the given spec, as produced by a variable
initializer. -/
def zerosTensor (sp : TensorSpec) : Tensor :=
  ⟨sp.shape, sp.dtype, List.replicate (numel sp.shape) 0⟩

/-- Kinds of Python exceptions that appear in this layer. -/
inductive ExcKind where
  | typeError
  | valueError
  | attributeError
  | retryableError
  | frozenInstanceError
deriving DecidableEq, Repr

/-- A Python exception value: its class and message. -/
structure PyError where
  kind : ExcKind
  msg : String
deriving DecidableEq, Repr

/-- The variable collections of a `tff.learning.Model` (or of a Keras model):
ordered lists of variable handles, here indices into the ambient store. -/
structure ModelVars where
  trainable : List Nat
  non_trainable : List Nat
  local_vars : List Nat
deriving DecidableEq, Repr

/-- What a zero-argument model factory does when invoked. -/
inductive FactoryOutcome where
  | returnsModel
  | returnsKeras
  | returnsNone
  | raises
deriving DecidableEq, Repr

/-- A zero-argument callable that builds a model: the specs of the variables
it creates in the current default graph, and what it returns. -/
structure FactoryDef where
  trainable : List TensorSpec
  non_trainable : List TensorSpec
  outcome : FactoryOutcome
deriving DecidableEq, Repr

/-- The universe of Python values this layer manipulates. -/
inductive PyVal where
  | pyNone
  | int (n : Int)
  | str (s : String)
  | exception (e : PyError)
  | varRef (i : Nat)
  | tensor (t : Tensor)
  | tffModel (m : ModelVars)
  | kerasModel (m : ModelVars)
  | factory (f : FactoryDef)
  | struct (elems : List (Option String × PyVal))

/-- The ambient store of variable values; a variable handle is an index. -/
abbrev Store := List Tensor

/-- Reading the tensor value denoted by a Python value: a variable handle
dereferences the store, a tensor is its own value. -/
def valueOf (s : Store) : PyVal → Option Tensor
  | .varRef i => s.get? i
  | .tensor t => some t
  | _ => Option.none

/-- Whether a value is an instance of `model_lib.Model` or `tf.keras.Model`. -/
def isModelLike : PyVal → Bool
  | .tffModel _ => true
  | .kerasModel _ => true
  | _ => false

/-- The container built by `ModelWeights`: two ordered field values. -/
structure ModelWeights where
  trainable : List PyVal
  non_trainable : List PyVal

/-- `ModelWeights.from_model`: `py_typecheck.check_type(model, (Model,
tf.keras.Model))`, then the container is built from the variable collections
themselves — it aliases the variable handles. The check is modelled from the
spec for `py_typecheck` (not under src/): a `TypeError` is raised when the
argument is not an instance of the listed classes. -/
def ModelWeights.from_model : PyVal → Except PyError ModelWeights
  | .tffModel m =>
      .ok ⟨m.trainable.map PyVal.varRef, m.non_trainable.map PyVal.varRef⟩
  | .kerasModel m =>
      .ok ⟨m.trainable.map PyVal.varRef, m.non_trainable.map PyVal.varRef⟩
  | _ => .error ⟨.typeError, "expected Model or tf.keras.Model"⟩

/-- Modelled from the spec: attribute access on a `structure.Struct`
(`structure.py` is not under src/). The element of the given name is
returned; the spec states that a structurally unexpected input to
`from_tff_result` fails with a type error. -/
def structGetAttr (elems : List (Option String × PyVal)) (name : String) :
    Except PyError PyVal :=
  match elems.find? (fun e => e.1 = some name) with
  | some e => .ok e.2
  | Option.none => .error ⟨.typeError, "no element of the requested name"⟩

/-- Modelled from the spec: `structure.iter_elements` (`structure.py` is not
under src/) yields the name/value pairs of a `Struct` in declared order and
rejects values of any other type. -/
def iterElements : PyVal → Except PyError (List (Option String × PyVal))
  | .struct elems => .ok elems
  | _ => .error ⟨.typeError, "expected structure.Struct"⟩

/-- `ModelWeights.from_tff_result`: `py_typecheck.check_type(struct,
structure.Struct)`, then the values of `struct.trainable` and
`struct.non_trainable` are collected in declared element order. -/
def ModelWeights.from_tff_result (v : PyVal) : Except PyError ModelWeights :=
  match v with
  | .struct elems =>
      match structGetAttr elems "trainable" with
      | .error e => .error e
      | .ok tr =>
          match iterElements tr with
          | .error e => .error e
          | .ok trElems =>
              match structGetAttr elems "non_trainable" with
              | .error e => .error e
              | .ok ntr =>
                  match iterElements ntr with
                  | .error e => .error e
                  | .ok ntrElems =>
                      .ok ⟨trElems.map Prod.snd, ntrElems.map Prod.snd⟩
  | _ => .error ⟨.typeError, "expected structure.Struct"⟩

/-- `tf.Variable.assign`: the variable must exist and the assigned value must
match its shape and dtype; on success the store is updated in place. -/
def varAssign (s : Store) (i : Nat) (t : Tensor) : Except PyError Store :=
  match s.get? i with
  | Option.none => .error ⟨.valueError, "unknown variable"⟩
  | some old =>
      if old.shape = t.shape ∧ old.dtype = t.dtype then .ok (s.set i t)
      else .error ⟨.valueError, "incompatible shape or dtype"⟩

/-- Sequential element-wise assignment, as `tf.nest.map_structure` applies
`var.assign` pairwise in order. The pair of result and final store records
which assignments took effect before any failure. -/
def assignSeq : List Nat → List PyVal → Store → (Except PyError Unit) × Store
  | [], [], s => (.ok (), s)
  | i :: vs, t :: ts, s =>
      match valueOf s t with
      | Option.none => (.error ⟨.typeError, "cannot read a tensor value"⟩, s)
      | some tv =>
          match varAssign s i tv with
          | .error e => (.error e, s)
          | .ok s1 => assignSeq vs ts s1
  | _, _, s => (.error ⟨.valueError, "incompatible structures"⟩, s)

/-- `tf.nest.map_structure` first checks the two structures agree, then
applies the function pairwise. -/
def mapStructureAssign (vs : List Nat) (ts : List PyVal) (s : Store) :
    (Except PyError Unit) × Store :=
  if vs.length = ts.length then assignSeq vs ts s
  else (.error ⟨.valueError, "incompatible structures"⟩, s)

/-- `ModelWeights.assign_weights_to`: `py_typecheck.check_type` on the target,
then the trainable collection is assigned element-wise, then the
non-trainable one. For a `tf.keras.Model` the source uses
`trainable_weights`/`non_trainable_weights`, which are the same collections
as `trainable_variables`/`non_trainable_variables`. -/
def ModelWeights.assign_weights_to (w : ModelWeights) (v : PyVal) (s : Store) :
    (Except PyError Unit) × Store :=
  match v with
  | .kerasModel m =>
      match mapStructureAssign m.trainable w.trainable s with
      | (.ok _, s1) => mapStructureAssign m.non_trainable w.non_trainable s1
      | (.error e, s1) => (.error e, s1)
  | .tffModel m =>
      match mapStructureAssign m.trainable w.trainable s with
      | (.ok _, s1) => mapStructureAssign m.non_trainable w.non_trainable s1
      | (.error e, s1) => (.error e, s1)
  | _ => (.error ⟨.typeError, "expected Model or tf.keras.Model"⟩, s)

/-- The graph-scoped global state: the store of variable values and the
stack of default graphs, each recording the handles of the variables
registered in it. The last element is the ambient global graph. -/
structure GState where
  store : Store
  graphStack : List (List Nat)
deriving DecidableEq, Repr

/-- Entering `with tf.Graph().as_default()`: a fresh empty graph becomes the
default. -/
def pushGraph (g : GState) : GState :=
  { g with graphStack := [] :: g.graphStack }

/-- Exiting the `with` block: the innermost default graph is discarded. -/
def popGraph (g : GState) : GState :=
  { g with graphStack := g.graphStack.tail }

/-- Creating one `tf.Variable`: its initial value is appended to the store
and its handle is registered in the current default graph. -/
def createVariable (sp : TensorSpec) (g : GState) : Nat × GState :=
  let id := g.store.length
  (id, { store := g.store ++ [zerosTensor sp],
         graphStack :=
           match g.graphStack with
           | [] => [[id]]
           | h :: t => (h ++ [id]) :: t })

/-- Creating one variable per spec, in order. -/
def createVars : List TensorSpec → GState → List Nat × GState
  | [], g => ([], g)
  | sp :: sps, g =>
      let p := createVariable sp g
      let q := createVars sps p.2
      (p.1 :: q.1, q.2)

/-- Invoking a zero-argument model factory: it creates its variables in the
current default graph and then returns a model, returns some other value, or
raises. -/
def callFactory (f : FactoryDef) (g : GState) :
    (Except PyError PyVal) × GState :=
  let p := createVars f.trainable g
  let q := createVars f.non_trainable p.2
  match f.outcome with
  | .returnsModel => (.ok (.tffModel ⟨p.1, q.1, []⟩), q.2)
  | .returnsKeras => (.ok (.kerasModel ⟨p.1, q.1, []⟩), q.2)
  | .returnsNone => (.ok .pyNone, q.2)
  | .raises => (.error ⟨.valueError, "model construction failed"⟩, q.2)

/-- Python `callable`: factories and Keras models define `__call__`;
`tff.learning.Model` does not. -/
def isCallable : PyVal → Bool
  | .factory _ => true
  | .kerasModel _ => true
  | _ => false

/-- Calling a value with zero arguments. Calling a Keras model without its
required inputs raises a `TypeError` (modelled from the spec: Keras is not
under src/); calling a non-callable raises a `TypeError`. -/
def callZeroArgs (v : PyVal) (g : GState) : (Except PyError PyVal) × GState :=
  match v with
  | .factory f => callFactory f g
  | .kerasModel _ =>
      (.error ⟨.typeError, "missing required positional arguments"⟩, g)
  | _ => (.error ⟨.typeError, "object is not callable"⟩, g)

mutual
/-- A TFF type descriptor: a tensor type or a structure of named types
(modelled from the spec: `computation_types` is not under src/). -/
inductive TffType where
  | tensor (sp : TensorSpec)
  | struc (elems : TffElems)

/-- The ordered, optionally named elements of a TFF structure type. -/
inductive TffElems where
  | nil
  | cons (name : Option String) (t : TffType) (rest : TffElems)
end

/-- The structure type of an unnamed tuple of tensor types. -/
def tensorElems : List TensorSpec → TffElems
  | [] => .nil
  | sp :: sps => .cons Option.none (.tensor sp) (tensorElems sps)

/-- The specs of a list of tensor-valued Python values, when all are
readable. -/
def specsOfVals (s : Store) : List PyVal → Option (List TensorSpec)
  | [] => some []
  | v :: vs =>
      match valueOf s v with
      | Option.none => Option.none
      | some t =>
          match specsOfVals s vs with
          | Option.none => Option.none
          | some sps => some (t.spec :: sps)

/-- Modelled from the spec: `type_conversions.type_from_tensors` (not under
src/) applied to a `ModelWeights` of tensors returns a structural type with
the two named fields `trainable` and `non_trainable`, each the structure of
the tensor types of the corresponding field, in order. -/
def type_from_tensors (s : Store) (w : ModelWeights) : Except PyError TffType :=
  match specsOfVals s w.trainable, specsOfVals s w.non_trainable with
  | some tr, some ntr =>
      .ok (.struc (.cons (some "trainable") (.struc (tensorElems tr))
            (.cons (some "non_trainable") (.struc (tensorElems ntr)) .nil)))
  | _, _ => .error ⟨.typeError, "expected a structure of tensors"⟩

/-- The tail of `weights_type_from_model` after the optional factory call:
`py_typecheck.check_type(model, model_lib.Model)` — only `Model` instances
are accepted here — then `type_from_tensors(ModelWeights.from_model(model))`. -/
def checkAndType (v : PyVal) (g : GState) : (Except PyError TffType) × GState :=
  match v with
  | .tffModel m =>
      match ModelWeights.from_model (.tffModel m) with
      | .ok w => (type_from_tensors g.store w, g)
      | .error e => (.error e, g)
  | _ => (.error ⟨.typeError, "expected Model"⟩, g)

/-- `weights_type_from_model`: if the argument is callable it is invoked once
inside a fresh default graph, entered and exited around the single call; then
the result must be a `model_lib.Model` and its weights type is computed. -/
def weights_type_from_model (v : PyVal) (g : GState) :
    (Except PyError TffType) × GState :=
  if isCallable v then
    let g1 := pushGraph g
    let p := callZeroArgs v g1
    let g3 := popGraph p.2
    match p.1 with
    | .error e => (.error e, g3)
    | .ok m => checkAndType m g3
  else checkAndType v g

/-- Attribute access on a TFF structure type, as `weights_type.trainable`. -/
def structTypeGetField (t : TffType) (name : String) : Except PyError TffType :=
  match t with
  | .struc elems => elemsFind elems name
  | .tensor _ => .error ⟨.attributeError, "no such attribute"⟩
where
  elemsFind : TffElems → String → Except PyError TffType
    | .nil, _ => .error ⟨.attributeError, "no such attribute"⟩
    | .cons n t rest, nm => if n = some nm then .ok t else elemsFind rest nm

/-- The result of `type_analysis.count_tensors_in_type`: the number of tensor
leaves and the number of scalar parameters. -/
structure TensorCount where
  tensors : Nat
  parameters : Nat
deriving DecidableEq, Repr

mutual
/-- Modelled from the spec: `type_analysis.count_tensors_in_type` (not under
src/) counts the tensor leaves of a type and their scalar parameters. -/
def count_tensors_in_type : TffType → TensorCount
  | .tensor sp => ⟨1, numel sp.shape⟩
  | .struc es => countElems es

/-- Tensor and parameter counts summed over the elements of a structure. -/
def countElems : TffElems → TensorCount
  | .nil => ⟨0, 0⟩
  | .cons _ t rest =>
      let c := count_tensors_in_type t
      let r := countElems rest
      ⟨c.tensors + r.tensors, c.parameters + r.parameters⟩
end

/-- `parameter_count_from_model`: derives the type descriptor via
`weights_type_from_model`, selects its `trainable` field, and counts the
tensors and scalar parameters in that sub-type only. -/
def parameter_count_from_model (v : PyVal) (g : GState) :
    (Except PyError TensorCount) × GState :=
  let p := weights_type_from_model v g
  match p.1 with
  | .error e => (.error e, p.2)
  | .ok t =>
      match structTypeGetField t "trainable" with
      | .error e => (.error e, p.2)
      | .ok trT => (.ok (count_tensors_in_type trT), p.2)

/-- Modelled from the spec: `async_execution_context._is_retryable_error`
(not under src/; exercised by the test in src/) returns `True` exactly when
the argument is an instance of `executors_errors.RetryableError`, and
`False` for every other value, including ordinary exceptions and
non-exception values. -/
def is_retryable_error : PyVal → Bool
  | .exception e => e.kind == .retryableError
  | _ => false

/-- Modelled from the spec: `attr`-generated `__setattr__` (the attrs library
is not under src/). On a class declared `frozen=True`, every attempt to set a
field after construction raises `FrozenInstanceError`; otherwise the field is
updated. -/
def attrsSetattr (frozen : Bool) (fields : List (String × PyVal))
    (name : String) (v : PyVal) : Except PyError (List (String × PyVal)) :=
  if frozen then .error ⟨.frozenInstanceError, "cannot set attribute"⟩
  else .ok (fields.map (fun p => if p.1 = name then (p.1, v) else p))

/-- Modelled from the spec: `attr`-generated `__delattr__` (the attrs library
is not under src/). On a class declared `frozen=True`, every attempt to
delete a field raises `FrozenInstanceError`. -/
def attrsDelattr (frozen : Bool) (fields : List (String × PyVal))
    (name : String) : Except PyError (List (String × PyVal)) :=
  if frozen then .error ⟨.frozenInstanceError, "cannot delete attribute"⟩
  else .ok (fields.filter (fun p => ¬ p.1 = name))

/-- `ModelWeights` is declared `@attr.s(eq=False, frozen=True, slots=True)`. -/
def modelWeightsFrozen : Bool := true

/-- `BatchOutput` is declared `@attr.s(frozen=True, slots=True, eq=False)`. -/
def batchOutputFrozen : Bool := true

/-- Modelled from the spec: the `attr`-generated constructor of `BatchOutput`
(the attrs library is not under src/). Each of `loss`, `predictions` and
`num_examples` is declared by `attr.ib()` with no default, so each must be
supplied — `Option.none` here means not supplied, while a supplied value may
itself be the Python `None` — and a missing one raises `TypeError`. -/
def batchOutputInit (loss predictions num_examples : Option PyVal) :
    Except PyError (List (String × PyVal)) :=
  match loss, predictions, num_examples with
  | some l, some p, some n =>
      .ok [("loss", l), ("predictions", p), ("num_examples", n)]
  | _, _, _ => .error ⟨.typeError, "missing required argument"⟩

/-- Whether two variable handles currently hold tensors of the same shape
and dtype, the structural-identity requirement of `assign_weights_to`. -/
def specsMatch (s : Store) (i j : Nat) : Bool :=
  match s.get? i, s.get? j with
  | some a, some b => a.shape == b.shape && a.dtype == b.dtype
  | _, _ => false

/-- Whether a value is a `structure.Struct` carrying struct-valued
`trainable` and `non_trainable` elements, the input shape `from_tff_result`
expects. -/
def isExpectedTffResult (v : PyVal) : Bool :=
  match v with
  | .struct elems =>
      (match structGetAttr elems "trainable" with
       | .ok (.struct _) => true
       | _ => false) &&
      (match structGetAttr elems "non_trainable" with
       | .ok (.struct _) => true
       | _ => false)
  | _ => false

/-- The weights type determined by the specs of the two variable
collections. -/
def weightsTypeOfSpecs (tr ntr : List TensorSpec) : TffType :=
  .struc (.cons (some "trainable") (.struc (tensorElems tr))
    (.cons (some "non_trainable") (.struc (tensorElems ntr)) .nil))

/-- A store of two scalar variables with distinct values, shared by two
models whose trainable collections list them in opposite orders. -/
def ovStore : Store := [⟨[], .int32, [10]⟩, ⟨[], .int32, [20]⟩]

/-- A model whose trainable variables are handles 0 and 1 of `ovStore`. -/
def ovM : ModelVars := ⟨[0, 1], [], []⟩

/-- A model aliasing the same two variables in the opposite order. -/
def ovM2 : ModelVars := ⟨[1, 0], [], []⟩

/-- A store of four scalar variables with distinct values. -/
def cxStore : Store :=
  [⟨[], .int32, [1]⟩, ⟨[], .int32, [2]⟩, ⟨[], .int32, [3]⟩, ⟨[], .int32, [4]⟩]

/-- A model over handles 0 (trainable) and 1 (non-trainable) of `cxStore`. -/
def cxM : ModelVars := ⟨[0], [1], []⟩

/-- A structurally identical model over the disjoint handles 2 and 3. -/
def cxM2 : ModelVars := ⟨[2], [3], []⟩

/-- A store of one trainable scalar (handle 0) and one non-trainable scalar
(handle 1). -/
def scStore : Store := [⟨[], .float32, [0]⟩, ⟨[], .float32, [0]⟩]

/-- A model with one trainable scalar variable and one non-trainable scalar
variable. -/
def scModel : ModelVars := ⟨[0], [1], []⟩

/-- The global state holding `scStore` with both handles in the ambient
graph. -/
def scG : GState := ⟨scStore, [[0, 1]]⟩

theorem getD_mem_of_lt {l : List Nat} {k : Nat} (h : k < l.length) :
    l.getD k 0 ∈ l := by
  rw [List.getD_eq_getElem l 0 h]
  exact List.getElem_mem h

theorem specsMatch_congr {s s1 : Store} {i j : Nat}
    (hi : s1.get? i = s.get? i) (hj : s1.get? j = s.get? j) :
    specsMatch s1 i j = specsMatch s i j := by
  unfold specsMatch
  rw [hi, hj]

theorem assignSeq_ok (vs : List Nat) :
    ∀ (rs : List Nat) (s : Store),
      vs.length = rs.length →
      (∀ k, k < vs.length → specsMatch s (vs.getD k 0) (rs.getD k 0) = true) →
      vs.Nodup →
      (∀ r, r ∈ rs → r ∉ vs) →
      ∃ s1, assignSeq vs (rs.map PyVal.varRef) s = (.ok (), s1) ∧
        s1.length = s.length ∧
        (∀ j, j ∉ vs → s1.get? j = s.get? j) ∧
        (∀ k, k < vs.length → s1.get? (vs.getD k 0) = s.get? (rs.getD k 0)) := by
  induction vs with
  | nil =>
      intro rs s hlen _ _ _
      cases rs with
      | nil => exact ⟨s, rfl, rfl, fun j _ => rfl, fun k hk => absurd hk (by simp)⟩
      | cons r rs => simp at hlen
  | cons v vs ih =>
      intro rs s hlen hmatch hnodup hdisj
      cases rs with
      | nil => simp at hlen
      | cons r rs =>
        have h0 : specsMatch s v r = true := hmatch 0 (by simp)
        unfold specsMatch at h0
        rcases hsv : s.get? v with _ | a <;> rcases hsr : s.get? r with _ | b <;>
          rw [hsv, hsr] at h0 <;> simp at h0
        have hvlt : v < s.length := (List.get?_eq_some.mp hsv).1
        have hvnot : v ∉ vs := (List.nodup_cons.mp hnodup).1
        have hnd : vs.Nodup := (List.nodup_cons.mp hnodup).2
        have hrnot : r ∉ v :: vs := hdisj r (List.mem_cons_self r rs)
        have hdisj2 : ∀ r2, r2 ∈ rs → r2 ∉ vs := by
          intro r2 hr2 hmem
          exact hdisj r2 (List.mem_cons_of_mem r hr2) (List.mem_cons_of_mem v hmem)
        have hne_rs : ∀ r2, r2 ∈ rs → v ≠ r2 := by
          intro r2 hr2 heq
          exact hdisj r2 (List.mem_cons_of_mem r hr2) (heq ▸ List.mem_cons_self v vs)
        have hmatch2 : ∀ k, k < vs.length →
            specsMatch (s.set v b) (vs.getD k 0) (rs.getD k 0) = true := by
          intro k hk
          have hklt : k + 1 < (v :: vs).length := by simpa using Nat.succ_lt_succ hk
          have hstep := hmatch (k + 1) hklt
          have hiv : v ≠ vs.getD k 0 := by
            intro heq
            exact hvnot (heq ▸ getD_mem_of_lt hk)
          have hir : v ≠ rs.getD k 0 := by
            have hklt2 : k < rs.length := by
              have := hlen
              simp at this
              omega
            exact hne_rs _ (getD_mem_of_lt hklt2)
          rw [specsMatch_congr (List.get?_set_ne b s hiv) (List.get?_set_ne b s hir)]
          exact hstep
        obtain ⟨s2, hrun2, hlen2, hframe2, hvals2⟩ :=
          ih rs (s.set v b) (by simpa using hlen) hmatch2 hnd hdisj2
        have hva : varAssign s v b = .ok (s.set v b) := by
          simp only [varAssign, hsv]
          rw [if_pos h0]
        have hvo : valueOf s (PyVal.varRef r) = some b := hsr
        refine ⟨s2, ?_, ?_, ?_, ?_⟩
        · show assignSeq (v :: vs) (PyVal.varRef r :: rs.map PyVal.varRef) s
            = (Except.ok (), s2)
          simp only [assignSeq, hvo, hva]
          exact hrun2
        · rw [hlen2, List.length_set]
        · intro j hj
          have hjv : j ∉ vs := fun hmem => hj (List.mem_cons_of_mem v hmem)
          have hjne : v ≠ j := fun heq => hj (heq ▸ List.mem_cons_self v vs)
          rw [hframe2 j hjv, List.get?_set_ne b s hjne]
        · intro k hk
          match k with
          | 0 =>
              show s2.get? v = s.get? r
              rw [hframe2 v hvnot, List.get?_set_eq_of_lt b hvlt, hsr]
          | k + 1 =>
              show s2.get? (vs.getD k 0) = s.get? (rs.getD k 0)
              have hk2 : k < vs.length := by simpa using hk
              have hklt2 : k < rs.length := by
                have := hlen
                simp at this
                omega
              rw [hvals2 k hk2,
                List.get?_set_ne b s (hne_rs _ (getD_mem_of_lt hklt2))]

theorem mapStructureAssign_ok (vs rs : List Nat) (s : Store)
    (hlen : vs.length = rs.length)
    (hmatch : ∀ k, k < vs.length → specsMatch s (vs.getD k 0) (rs.getD k 0) = true)
    (hnodup : vs.Nodup)
    (hdisj : ∀ r, r ∈ rs → r ∉ vs) :
    ∃ s1, mapStructureAssign vs (rs.map PyVal.varRef) s = (.ok (), s1) ∧
      s1.length = s.length ∧
      (∀ j, j ∉ vs → s1.get? j = s.get? j) ∧
      (∀ k, k < vs.length → s1.get? (vs.getD k 0) = s.get? (rs.getD k 0)) := by
  obtain ⟨s1, hrun, hl, hf, hv⟩ := assignSeq_ok vs rs s hlen hmatch hnodup hdisj
  refine ⟨s1, ?_, hl, hf, hv⟩
  unfold mapStructureAssign
  rw [if_pos (by simpa using hlen)]
  exact hrun

theorem structGetAttr_error_kind (elems : List (Option String × PyVal))
    (name : String) (e : PyError) (h : structGetAttr elems name = .error e) :
    e = ⟨.typeError, "no element of the requested name"⟩ := by
  unfold structGetAttr at h
  rcases hf : elems.find? (fun x => x.1 = some name) with _ | x <;> rw [hf] at h
  · exact (Except.error.injEq _ _).mp h.symm ▸ rfl
  · cases h

theorem iterElements_ok (v : PyVal) (l : List (Option String × PyVal))
    (h : iterElements v = .ok l) : v = .struct l := by
  cases v <;> simp_all [iterElements]

theorem iterElements_error (v : PyVal) (e : PyError)
    (h : iterElements v = .error e) :
    e = ⟨.typeError, "expected structure.Struct"⟩ := by
  cases v <;> simp_all [iterElements]

/-- C1 (amended): `from_model` on `m` followed by `assign_weights_to` on a
structurally identical `m2` whose variables are pairwise distinct and not
aliased by `m` succeeds and leaves each of the variables of `m2` equal,
position by position, to the capture-time value of the corresponding
variable of `m`. -/
theorem assign_weights_roundtrip (s : Store) (m m2 : ModelVars)
    (hlt : m2.trainable.length = m.trainable.length)
    (hln : m2.non_trainable.length = m.non_trainable.length)
    (hmt : ∀ k, k < m2.trainable.length →
      specsMatch s (m2.trainable.getD k 0) (m.trainable.getD k 0) = true)
    (hmn : ∀ k, k < m2.non_trainable.length →
      specsMatch s (m2.non_trainable.getD k 0) (m.non_trainable.getD k 0) = true)
    (hnd : (m2.trainable ++ m2.non_trainable).Nodup)
    (hdisj : ∀ i, i ∈ m.trainable ++ m.non_trainable →
      i ∉ m2.trainable ++ m2.non_trainable) :
    ∃ w s2, ModelWeights.from_model (.tffModel m) = .ok w ∧
      w.assign_weights_to (.tffModel m2) s = (.ok (), s2) ∧
      (∀ k, k < m2.trainable.length →
        s2.get? (m2.trainable.getD k 0) = s.get? (m.trainable.getD k 0)) ∧
      (∀ k, k < m2.non_trainable.length →
        s2.get? (m2.non_trainable.getD k 0) = s.get? (m.non_trainable.getD k 0)) := by
  obtain ⟨hnd1, hnd2, hdj⟩ := List.nodup_append.mp hnd
  have hdjn : ∀ i, i ∈ m2.non_trainable → i ∉ m2.trainable := by
    intro i hi hmem
    exact hdj hmem hi
  have hdisj_t : ∀ r, r ∈ m.trainable → r ∉ m2.trainable := by
    intro r hr hmem
    exact hdisj r (List.mem_append_left _ hr) (List.mem_append_left _ hmem)
  have hdisj_nt : ∀ r, r ∈ m.non_trainable → r ∉ m2.trainable := by
    intro r hr hmem
    exact hdisj r (List.mem_append_right _ hr) (List.mem_append_left _ hmem)
  have hdisj_nn : ∀ r, r ∈ m.non_trainable → r ∉ m2.non_trainable := by
    intro r hr hmem
    exact hdisj r (List.mem_append_right _ hr) (List.mem_append_right _ hmem)
  obtain ⟨s1, hrun1, hlen1, hframe1, hvals1⟩ :=
    mapStructureAssign_ok m2.trainable m.trainable s hlt hmt hnd1 hdisj_t
  have hmn2 : ∀ k, k < m2.non_trainable.length →
      specsMatch s1 (m2.non_trainable.getD k 0) (m.non_trainable.getD k 0)
        = true := by
    intro k hk
    have hk2 : k < m.non_trainable.length := hln ▸ hk
    rw [specsMatch_congr
      (hframe1 _ (hdjn _ (getD_mem_of_lt hk)))
      (hframe1 _ (hdisj_nt _ (getD_mem_of_lt hk2)))]
    exact hmn k hk
  obtain ⟨s2, hrun2, hlen2, hframe2, hvals2⟩ :=
    mapStructureAssign_ok m2.non_trainable m.non_trainable s1 hln hmn2 hnd2 hdisj_nn
  refine ⟨⟨m.trainable.map PyVal.varRef, m.non_trainable.map PyVal.varRef⟩,
    s2, rfl, ?_, ?_, ?_⟩
  · show ModelWeights.assign_weights_to _ _ s = (Except.ok (), s2)
    simp only [ModelWeights.assign_weights_to, hrun1]
    exact hrun2
  · intro k hk
    rw [hframe2 _ (fun hmem => hdj (getD_mem_of_lt hk) hmem)]
    exact hvals1 k hk
  · intro k hk
    have hk2 : k < m.non_trainable.length := hln ▸ hk
    rw [hvals2 k hk]
    exact hframe1 _ (hdisj_nt _ (getD_mem_of_lt hk2))

theorem assign_weights_roundtrip_witness :
    ∃ w s2, ModelWeights.from_model (.tffModel cxM) = .ok w ∧
      w.assign_weights_to (.tffModel cxM2) cxStore = (.ok (), s2) ∧
      (∀ k, k < cxM2.trainable.length →
        s2.get? (cxM2.trainable.getD k 0) = cxStore.get? (cxM.trainable.getD k 0)) ∧
      (∀ k, k < cxM2.non_trainable.length →
        s2.get? (cxM2.non_trainable.getD k 0)
          = cxStore.get? (cxM.non_trainable.getD k 0)) :=
  assign_weights_roundtrip cxStore cxM cxM2 rfl rfl (by decide) (by decide)
    (by decide) (by decide)

/-- C1 counterexample: the two trainable collections of `ovM` and `ovM2` are
structurally identical (same count, shapes, dtypes, order), yet after
`from_model` on `ovM` and `assign_weights_to` on `ovM2` — which aliases the
same two variables in swapped order — the variable of `ovM2` at position 1
does not hold the capture-time value of the variable of `ovM` at position 1. -/
theorem assign_weights_roundtrip_cx :
    ovM.trainable.length = ovM2.trainable.length ∧
    ovM.non_trainable.length = ovM2.non_trainable.length ∧
    (∀ k, k < ovM2.trainable.length →
      specsMatch ovStore (ovM2.trainable.getD k 0) (ovM.trainable.getD k 0)
        = true) ∧
    ∃ w, ModelWeights.from_model (.tffModel ovM) = .ok w ∧
      ∃ s2, w.assign_weights_to (.tffModel ovM2) ovStore = (.ok (), s2) ∧
        s2.get? (ovM2.trainable.getD 1 0) ≠ ovStore.get? (ovM.trainable.getD 1 0) := by
  refine ⟨rfl, rfl, by decide, ⟨_, rfl, ?_⟩⟩
  refine ⟨[⟨[], .int32, [10]⟩, ⟨[], .int32, [10]⟩], rfl, ?_⟩
  decide

/-- C2: `from_model` returns a container whose `trainable` and
`non_trainable` fields are exactly the variable-handle collections of the
model — same length, same order, aliasing the handles rather than copying
values — for both `tff.learning.Model` and Keras model instances. -/
theorem from_model_aliases (m : ModelVars) :
    ∃ w wk, ModelWeights.from_model (.tffModel m) = .ok w ∧
      ModelWeights.from_model (.kerasModel m) = .ok wk ∧
      w.trainable = m.trainable.map PyVal.varRef ∧
      w.non_trainable = m.non_trainable.map PyVal.varRef ∧
      wk.trainable = m.trainable.map PyVal.varRef ∧
      wk.non_trainable = m.non_trainable.map PyVal.varRef ∧
      w.trainable.length = m.trainable.length ∧
      w.non_trainable.length = m.non_trainable.length ∧
      (∀ k, w.trainable.get? k = (m.trainable.get? k).map PyVal.varRef) ∧
      (∀ k, w.non_trainable.get? k = (m.non_trainable.get? k).map PyVal.varRef) := by
  refine ⟨_, _, rfl, rfl, rfl, rfl, rfl, rfl, List.length_map _ _,
    List.length_map _ _, ?_, ?_⟩ <;> intro k <;> exact List.get?_map _ _ _

/-- C3: `from_tff_result` on a two-field ordered structure with struct-valued
fields `trainable` and `non_trainable` returns the `ModelWeights` of the
element values in declared order, and on every input that is not such a
structural value it fails with a type error. -/
theorem from_tff_result_spec (te ne : List (Option String × PyVal)) (v : PyVal)
    (hv : isExpectedTffResult v = false) :
    ModelWeights.from_tff_result
        (.struct [(some "trainable", .struct te),
                  (some "non_trainable", .struct ne)])
      = .ok ⟨te.map Prod.snd, ne.map Prod.snd⟩ ∧
    ∃ msg, ModelWeights.from_tff_result v = .error ⟨.typeError, msg⟩ := by
  refine ⟨rfl, ?_⟩
  cases v with
  | struct elems =>
      rcases h1 : structGetAttr elems "trainable" with e1 | tr
      · have hr : ModelWeights.from_tff_result (.struct elems) = .error e1 := by
          simp [ModelWeights.from_tff_result, h1]
        rw [structGetAttr_error_kind elems "trainable" e1 h1] at hr
        exact ⟨_, hr⟩
      · rcases h2 : iterElements tr with e2 | trE
        · have hr : ModelWeights.from_tff_result (.struct elems) = .error e2 := by
            simp [ModelWeights.from_tff_result, h1, h2]
          rw [iterElements_error tr e2 h2] at hr
          exact ⟨_, hr⟩
        · rcases h3 : structGetAttr elems "non_trainable" with e3 | ntr
          · have hr : ModelWeights.from_tff_result (.struct elems)
                = .error e3 := by
              simp [ModelWeights.from_tff_result, h1, h2, h3]
            rw [structGetAttr_error_kind elems "non_trainable" e3 h3] at hr
            exact ⟨_, hr⟩
          · rcases h4 : iterElements ntr with e4 | ntrE
            · have hr : ModelWeights.from_tff_result (.struct elems)
                  = .error e4 := by
                simp [ModelWeights.from_tff_result, h1, h2, h3, h4]
              rw [iterElements_error ntr e4 h4] at hr
              exact ⟨_, hr⟩
            · exfalso
              have htr := iterElements_ok tr trE h2
              have hntr := iterElements_ok ntr ntrE h4
              subst htr
              subst hntr
              simp [isExpectedTffResult, h1, h3] at hv
  | pyNone => exact ⟨_, rfl⟩
  | int n => exact ⟨_, rfl⟩
  | str s => exact ⟨_, rfl⟩
  | exception e => exact ⟨_, rfl⟩
  | varRef i => exact ⟨_, rfl⟩
  | tensor t => exact ⟨_, rfl⟩
  | tffModel m => exact ⟨_, rfl⟩
  | kerasModel m => exact ⟨_, rfl⟩
  | factory f => exact ⟨_, rfl⟩

theorem from_tff_result_spec_witness :
    isExpectedTffResult (.int 1) = false ∧
    (ModelWeights.from_tff_result
        (.struct [(some "trainable", .struct [(Option.none, .int 5)]),
                  (some "non_trainable", .struct [(Option.none, .int 7)])])
      = .ok ⟨[.int 5], [.int 7]⟩ ∧
    ∃ msg, ModelWeights.from_tff_result (.int 1) = .error ⟨.typeError, msg⟩) :=
  ⟨rfl, from_tff_result_spec [(Option.none, .int 5)] [(Option.none, .int 7)]
    (.int 1) rfl⟩

/-- C6: `from_model` and `assign_weights_to` reject every argument that is
not a `Model` or Keras model with a `TypeError` at the call site, before any
variable is read or assigned — the store is returned unchanged. -/
theorem typecheck_rejects_nonmodels (v : PyVal) (s : Store) (w : ModelWeights)
    (hv : isModelLike v = false) :
    ModelWeights.from_model v =
      .error ⟨.typeError, "expected Model or tf.keras.Model"⟩ ∧
    ModelWeights.assign_weights_to w v s =
      (.error ⟨.typeError, "expected Model or tf.keras.Model"⟩, s) := by
  cases v <;> simp_all [isModelLike, ModelWeights.from_model,
    ModelWeights.assign_weights_to]

theorem typecheck_rejects_nonmodels_witness :
    isModelLike (.str "a") = false ∧
    (ModelWeights.from_model (.str "a") =
      .error ⟨.typeError, "expected Model or tf.keras.Model"⟩ ∧
    ModelWeights.assign_weights_to ⟨[], []⟩ (.str "a") [] =
      (.error ⟨.typeError, "expected Model or tf.keras.Model"⟩, [])) :=
  ⟨rfl, typecheck_rejects_nonmodels (.str "a") [] ⟨[], []⟩ rfl⟩

/-- C7: the retryable-error classifier returns true on a `RetryableError`
instance and false on a `TypeError` instance, an integer, a string and the
absent value; in general it returns true exactly on `RetryableError`
instances. -/
theorem is_retryable_error_spec :
    is_retryable_error (.exception ⟨.retryableError, "retryable"⟩) = true ∧
    is_retryable_error (.exception ⟨.typeError, "type error"⟩) = false ∧
    is_retryable_error (.int 1) = false ∧
    is_retryable_error (.str "a") = false ∧
    is_retryable_error .pyNone = false ∧
    ∀ v : PyVal, is_retryable_error v = true ↔
      ∃ msg, v = .exception ⟨.retryableError, msg⟩ := by
  refine ⟨rfl, rfl, rfl, rfl, rfl, ?_⟩
  intro v
  cases v with
  | exception e =>
      simp only [is_retryable_error, beq_iff_eq]
      constructor
      · intro h
        exact ⟨e.msg, by cases e; simp_all⟩
      · rintro ⟨m2, hm⟩
        injection hm with h2
        rw [h2]
  | pyNone => simp [is_retryable_error]
  | int n => simp [is_retryable_error]
  | str s => simp [is_retryable_error]
  | varRef i => simp [is_retryable_error]
  | tensor t => simp [is_retryable_error]
  | tffModel m => simp [is_retryable_error]
  | kerasModel m => simp [is_retryable_error]
  | factory f => simp [is_retryable_error]
  | struct elems => simp [is_retryable_error]

/-- C8: on the frozen classes `ModelWeights` and `BatchOutput`, every attempt
to set or delete a field after construction fails with
`FrozenInstanceError`, so the fields of an instance never change. -/
theorem frozen_instances_immutable (fields : List (String × PyVal))
    (name : String) (v : PyVal) :
    attrsSetattr modelWeightsFrozen fields name v =
      .error ⟨.frozenInstanceError, "cannot set attribute"⟩ ∧
    attrsDelattr modelWeightsFrozen fields name =
      .error ⟨.frozenInstanceError, "cannot delete attribute"⟩ ∧
    attrsSetattr batchOutputFrozen fields name v =
      .error ⟨.frozenInstanceError, "cannot set attribute"⟩ ∧
    attrsDelattr batchOutputFrozen fields name =
      .error ⟨.frozenInstanceError, "cannot delete attribute"⟩ ∧
    (∀ fields2, attrsSetattr modelWeightsFrozen fields name v ≠ .ok fields2) ∧
    (∀ fields2, attrsDelattr batchOutputFrozen fields name ≠ .ok fields2) := by
  refine ⟨rfl, rfl, rfl, rfl, ?_, ?_⟩ <;> intro fields2 h <;>
    simp [attrsSetattr, attrsDelattr, modelWeightsFrozen, batchOutputFrozen] at h

/-- C10: constructing a `BatchOutput` succeeds exactly when all three of
`loss`, `predictions` and `num_examples` are supplied — each supplied value
may itself be the Python `None` — and fails with a `TypeError` when any is
missing. -/
theorem batch_output_init_spec :
    (∀ l p n : PyVal, batchOutputInit (some l) (some p) (some n) =
      .ok [("loss", l), ("predictions", p), ("num_examples", n)]) ∧
    batchOutputInit (some .pyNone) (some .pyNone) (some .pyNone) =
      .ok [("loss", .pyNone), ("predictions", .pyNone),
           ("num_examples", .pyNone)] ∧
    (∀ l p n : Option PyVal,
      (l = Option.none ∨ p = Option.none ∨ n = Option.none) →
      batchOutputInit l p n = .error ⟨.typeError, "missing required argument"⟩) := by
  refine ⟨fun l p n => rfl, rfl, ?_⟩
  intro l p n h
  cases l <;> cases p <;> cases n <;> simp_all [batchOutputInit]

theorem batch_output_init_witness :
    batchOutputInit Option.none Option.none Option.none =
      .error ⟨.typeError, "missing required argument"⟩ :=
  batch_output_init_spec.2.2 Option.none Option.none Option.none (Or.inl rfl)

theorem zerosTensor_spec (sp : TensorSpec) : (zerosTensor sp).spec = sp := rfl

theorem createVars_spec (specs : List TensorSpec) :
    ∀ g : GState,
      (createVars specs g).1.length = specs.length ∧
      (createVars specs g).2.store.length = g.store.length + specs.length ∧
      (∀ j, j < g.store.length →
        (createVars specs g).2.store.get? j = g.store.get? j) ∧
      (∀ k, k < specs.length →
        (createVars specs g).2.store.get? ((createVars specs g).1.getD k 0)
          = some (zerosTensor (specs.getD k ⟨[], .float32⟩))) ∧
      (∀ h t, g.graphStack = h :: t →
        ∃ h2, (createVars specs g).2.graphStack = h2 :: t) := by
  induction specs with
  | nil =>
      intro g
      exact ⟨rfl, rfl, fun j _ => rfl, fun k hk => absurd hk (by simp),
        fun h t ht => ⟨h, ht⟩⟩
  | cons sp sps ih =>
      intro g
      obtain ⟨ihlen, ihslen, ihold, ihnew, ihstack⟩ := ih (createVariable sp g).2
      have hg1store : (createVariable sp g).2.store
          = g.store ++ [zerosTensor sp] := rfl
      have hg1len : (createVariable sp g).2.store.length = g.store.length + 1 := by
        rw [hg1store, List.length_append]
        rfl
      refine ⟨?_, ?_, ?_, ?_, ?_⟩
      · show ((createVariable sp g).1
            :: (createVars sps (createVariable sp g).2).1).length
          = sps.length + 1
        simp [ihlen]
      · show (createVars sps (createVariable sp g).2).2.store.length
          = g.store.length + (sps.length + 1)
        rw [ihslen, hg1len]
        omega
      · intro j hj
        show (createVars sps (createVariable sp g).2).2.store.get? j
          = g.store.get? j
        rw [ihold j (by rw [hg1len]; omega), hg1store]
        exact List.get?_append hj
      · intro k hk
        match k with
        | 0 =>
            show (createVars sps (createVariable sp g).2).2.store.get?
                (createVariable sp g).1
              = some (zerosTensor sp)
            have hid : (createVariable sp g).1 = g.store.length := rfl
            rw [hid, ihold g.store.length (by rw [hg1len]; omega), hg1store,
              List.get?_append_right (Nat.le_refl _)]
            simp
        | k + 1 =>
            show (createVars sps (createVariable sp g).2).2.store.get?
                ((createVars sps (createVariable sp g).2).1.getD k 0)
              = some (zerosTensor (sps.getD k ⟨[], .float32⟩))
            exact ihnew k (by simpa using hk)
      · intro h t ht
        have hstep : (createVariable sp g).2.graphStack
            = (h ++ [g.store.length]) :: t := by
          simp [createVariable, ht]
        exact ihstack _ _ hstep

theorem specsOfVals_eq (s : Store) (ids : List Nat) :
    ∀ specs : List TensorSpec,
      ids.length = specs.length →
      (∀ k, k < ids.length → ∃ t, s.get? (ids.getD k 0) = some t ∧
        t.spec = specs.getD k ⟨[], .float32⟩) →
      specsOfVals s (ids.map PyVal.varRef) = some specs := by
  induction ids with
  | nil =>
      intro specs hlen _
      cases specs with
      | nil => rfl
      | cons a l => simp at hlen
  | cons i ids ih =>
      intro specs hlen hl
      cases specs with
      | nil => simp at hlen
      | cons sp sps =>
          obtain ⟨t, ht, hspec⟩ := hl 0 (by simp)
          have hrec := ih sps (by simpa using hlen)
            (fun k hk => hl (k + 1) (by simpa using Nat.succ_lt_succ hk))
          have ht2 : valueOf s (PyVal.varRef i) = some t := ht
          show specsOfVals s (PyVal.varRef i :: ids.map PyVal.varRef)
            = some (sp :: sps)
          simp only [specsOfVals, ht2, hrec]
          have hspec2 : t.spec = sp := hspec
          rw [hspec2]

theorem checkAndType_state (v : PyVal) (g : GState) : (checkAndType v g).2 = g := by
  cases v <;> rfl

theorem weights_type_factory_run_eq (f : FactoryDef) (g : GState) :
    weights_type_from_model (.factory f) g =
      (match (callFactory f (pushGraph g)).1 with
       | .error e => (.error e, popGraph (callFactory f (pushGraph g)).2)
       | .ok m => checkAndType m (popGraph (callFactory f (pushGraph g)).2)) := rfl

theorem callFactory_state (f : FactoryDef) (g : GState) :
    (callFactory f g).2
      = (createVars f.non_trainable (createVars f.trainable g).2).2 := by
  cases houtc : f.outcome <;> simp [callFactory, houtc]

theorem callFactory_model (f : FactoryDef) (g : GState)
    (h : f.outcome = .returnsModel) :
    (callFactory f g).1 =
      .ok (.tffModel ⟨(createVars f.trainable g).1,
        (createVars f.non_trainable (createVars f.trainable g).2).1, []⟩) := by
  simp [callFactory, h]

theorem callFactory_stack (f : FactoryDef) (g : GState) (h : List Nat)
    (t : List (List Nat)) (hg : g.graphStack = h :: t) :
    ∃ h2, (callFactory f g).2.graphStack = h2 :: t := by
  obtain ⟨_, _, _, _, hstack1⟩ := createVars_spec f.trainable g
  obtain ⟨h2, hs2⟩ := hstack1 h t hg
  obtain ⟨_, _, _, _, hstack2⟩ :=
    createVars_spec f.non_trainable (createVars f.trainable g).2
  obtain ⟨h3, hs3⟩ := hstack2 h2 t hs2
  rw [callFactory_state]
  exact ⟨h3, hs3⟩

theorem weights_type_factory_stack (f : FactoryDef) (g : GState) :
    (weights_type_from_model (.factory f) g).2.graphStack = g.graphStack := by
  rw [weights_type_factory_run_eq]
  obtain ⟨h3, hs3⟩ := callFactory_stack f (pushGraph g) [] g.graphStack rfl
  rcases hcf : (callFactory f (pushGraph g)).1 with e | mv
  · show (popGraph (callFactory f (pushGraph g)).2).graphStack = g.graphStack
    rw [popGraph, hs3]
    rfl
  · rw [checkAndType_state]
    show (popGraph (callFactory f (pushGraph g)).2).graphStack = g.graphStack
    rw [popGraph, hs3]
    rfl

theorem weights_type_factory_run (f : FactoryDef) (g : GState)
    (hout : f.outcome = .returnsModel) :
    (weights_type_from_model (.factory f) g).1 =
      .ok (weightsTypeOfSpecs f.trainable f.non_trainable) := by
  rw [weights_type_factory_run_eq,
    callFactory_model f (pushGraph g) hout]
  rw [callFactory_state]
  obtain ⟨hlen1, hslen1, hold1, hnew1, _⟩ :=
    createVars_spec f.trainable (pushGraph g)
  obtain ⟨hlen2, hslen2, hold2, hnew2, _⟩ :=
    createVars_spec f.non_trainable (createVars f.trainable (pushGraph g)).2
  have htr : specsOfVals
      (createVars f.non_trainable (createVars f.trainable (pushGraph g)).2).2.store
      ((createVars f.trainable (pushGraph g)).1.map PyVal.varRef)
      = some f.trainable := by
    refine specsOfVals_eq _ _ f.trainable hlen1 ?_
    intro k hk
    have hk2 : k < f.trainable.length := hlen1 ▸ hk
    have hx := hnew1 k hk2
    have hlt : (createVars f.trainable (pushGraph g)).1.getD k 0
        < (createVars f.trainable (pushGraph g)).2.store.length :=
      (List.get?_eq_some.mp hx).1
    refine ⟨zerosTensor (f.trainable.getD k ⟨[], .float32⟩), ?_, zerosTensor_spec _⟩
    rw [hold2 _ hlt]
    exact hx
  have hntr : specsOfVals
      (createVars f.non_trainable (createVars f.trainable (pushGraph g)).2).2.store
      ((createVars f.non_trainable
          (createVars f.trainable (pushGraph g)).2).1.map PyVal.varRef)
      = some f.non_trainable := by
    refine specsOfVals_eq _ _ f.non_trainable hlen2 ?_
    intro k hk
    have hk2 : k < f.non_trainable.length := hlen2 ▸ hk
    refine ⟨zerosTensor (f.non_trainable.getD k ⟨[], .float32⟩), ?_,
      zerosTensor_spec _⟩
    exact hnew2 k hk2
  show (type_from_tensors
      (popGraph (createVars f.non_trainable
        (createVars f.trainable (pushGraph g)).2).2).store
      ⟨(createVars f.trainable (pushGraph g)).1.map PyVal.varRef,
       (createVars f.non_trainable
          (createVars f.trainable (pushGraph g)).2).1.map PyVal.varRef⟩)
    = .ok (weightsTypeOfSpecs f.trainable f.non_trainable)
  have hpop : (popGraph (createVars f.non_trainable
      (createVars f.trainable (pushGraph g)).2).2).store
      = (createVars f.non_trainable
          (createVars f.trainable (pushGraph g)).2).2.store := rfl
  rw [hpop]
  unfold type_from_tensors
  rw [htr, hntr]
  rfl

theorem weights_type_factory_err (f : FactoryDef) (g : GState) (e : PyError)
    (hout : (callFactory f (pushGraph g)).1 = .error e) :
    (weights_type_from_model (.factory f) g).1 = .error e := by
  rw [weights_type_factory_run_eq, hout]

theorem weights_type_factory_nonmodel (f : FactoryDef) (g : GState) (mv : PyVal)
    (hout : (callFactory f (pushGraph g)).1 = .ok mv)
    (hmv : (match mv with | .tffModel _ => false | _ => true) = true) :
    (weights_type_from_model (.factory f) g).1 =
      .error ⟨.typeError, "expected Model"⟩ := by
  rw [weights_type_factory_run_eq, hout]
  cases mv <;> simp_all [checkAndType]

/-- C4: `weights_type_from_model` on a factory yields the same type
descriptor as on an already-constructed instance of an equivalent model,
restores the ambient graph stack (no residual global variable state), leaves
the state untouched on the instance path, exits the construction scope for
every factory, and cleans up even when construction raises. -/
theorem weights_type_from_model_spec (f f2 : FactoryDef) (m : ModelVars)
    (g gi : GState)
    (hout : f.outcome = .returnsModel)
    (heqt : specsOfVals gi.store (m.trainable.map PyVal.varRef)
      = some f.trainable)
    (heqn : specsOfVals gi.store (m.non_trainable.map PyVal.varRef)
      = some f.non_trainable) :
    (weights_type_from_model (.factory f) g).1 =
      (weights_type_from_model (.tffModel m) gi).1 ∧
    (weights_type_from_model (.factory f) g).2.graphStack = g.graphStack ∧
    (weights_type_from_model (.tffModel m) gi).2 = gi ∧
    (weights_type_from_model (.factory f2) g).2.graphStack = g.graphStack ∧
    (f2.outcome = .raises →
      (weights_type_from_model (.factory f2) g).1 =
        .error ⟨.valueError, "model construction failed"⟩) := by
  have hinst : (weights_type_from_model (.tffModel m) gi).1
      = .ok (weightsTypeOfSpecs f.trainable f.non_trainable) := by
    show type_from_tensors gi.store ⟨m.trainable.map PyVal.varRef,
      m.non_trainable.map PyVal.varRef⟩ = _
    unfold type_from_tensors
    rw [heqt, heqn]
    rfl
  refine ⟨?_, weights_type_factory_stack f g, rfl,
    weights_type_factory_stack f2 g, ?_⟩
  · rw [weights_type_factory_run f g hout, hinst]
  · intro hr
    apply weights_type_factory_err
    simp [callFactory, hr]

theorem weights_type_from_model_spec_witness :
    (⟨[⟨[], .int32⟩], [], .returnsModel⟩ : FactoryDef).outcome
        = .returnsModel ∧
    (weights_type_from_model (.factory ⟨[⟨[], .int32⟩], [], .returnsModel⟩)
        (⟨[], [[]]⟩ : GState)).1 =
      (weights_type_from_model (.tffModel ⟨[0], [], []⟩)
        (⟨[⟨[], .int32, [0]⟩], [[0]]⟩ : GState)).1 :=
  ⟨rfl, (weights_type_from_model_spec ⟨[⟨[], .int32⟩], [], .returnsModel⟩
      ⟨[], [], .raises⟩ ⟨[0], [], []⟩ ⟨[], [[]]⟩ ⟨[⟨[], .int32, [0]⟩], [[0]]⟩
      rfl rfl rfl).1⟩

/-- C5: `parameter_count_from_model` derives the type descriptor via
`weights_type_from_model` and counts tensors and scalar parameters over the
`trainable` sub-type only; for a model with one trainable scalar variable and
one non-trainable scalar variable it reports one trainable parameter. -/
theorem parameter_count_spec (v : PyVal) (g : GState) (t trT : TffType)
    (hw : (weights_type_from_model v g).1 = .ok t)
    (htr : structTypeGetField t "trainable" = .ok trT) :
    (parameter_count_from_model v g).1 = .ok (count_tensors_in_type trT) ∧
    (parameter_count_from_model (.tffModel scModel) scG).1 =
      .ok ⟨1, 1⟩ := by
  constructor
  · simp only [parameter_count_from_model, hw, htr]
  · rfl

theorem parameter_count_spec_witness :
    (weights_type_from_model (.tffModel scModel) scG).1
        = .ok (weightsTypeOfSpecs [⟨[], .float32⟩] [⟨[], .float32⟩]) ∧
    (parameter_count_from_model (.tffModel scModel) scG).1
        = .ok (count_tensors_in_type (.struc (tensorElems [⟨[], .float32⟩]))) :=
  ⟨rfl, (parameter_count_spec (.tffModel scModel) scG
      (weightsTypeOfSpecs [⟨[], .float32⟩] [⟨[], .float32⟩])
      (.struc (tensorElems [⟨[], .float32⟩])) rfl rfl).1⟩

/-- C9: `weights_type_from_model` tests callability before the type check,
so every callable argument is invoked as a zero-argument factory; after the
optional invocation only `model_lib.Model` instances are accepted and every
other result raises a `TypeError`; in particular a Keras model, being
callable, is never accepted directly here even though `from_model` and
`assign_weights_to` accept Keras models. -/
theorem weights_type_callable_first (g : GState) (m : ModelVars)
    (f : FactoryDef) :
    isCallable (.kerasModel m) = true ∧
    (weights_type_from_model (.kerasModel m) g).1 =
      .error ⟨.typeError, "missing required positional arguments"⟩ ∧
    (∃ w, ModelWeights.from_model (.kerasModel m) = .ok w) ∧
    ModelWeights.assign_weights_to ⟨[], []⟩ (.kerasModel ⟨[], [], []⟩) []
      = (.ok (), []) ∧
    (f.outcome = .returnsNone →
      (weights_type_from_model (.factory f) g).1 =
        .error ⟨.typeError, "expected Model"⟩) ∧
    (f.outcome = .returnsKeras →
      (weights_type_from_model (.factory f) g).1 =
        .error ⟨.typeError, "expected Model"⟩) ∧
    (∀ v2 : PyVal, isCallable v2 = false → isModelLike v2 = false →
      (weights_type_from_model v2 g).1 =
        .error ⟨.typeError, "expected Model"⟩) ∧
    (f.outcome = .returnsModel →
      (weights_type_from_model (.factory f) g).1 =
        .ok (weightsTypeOfSpecs f.trainable f.non_trainable)) := by
  refine ⟨rfl, rfl, ⟨_, rfl⟩, rfl, ?_, ?_, ?_,
    fun h => weights_type_factory_run f g h⟩
  · intro h
    exact weights_type_factory_nonmodel f g PyVal.pyNone
      (by simp [callFactory, h]) rfl
  · intro h
    exact weights_type_factory_nonmodel f g
      (.kerasModel ⟨(createVars f.trainable (pushGraph g)).1,
        (createVars f.non_trainable
          (createVars f.trainable (pushGraph g)).2).1, []⟩)
      (by simp [callFactory, h]) rfl
  · intro v2 hc hm
    cases v2 <;>
      simp_all [weights_type_from_model, isCallable, isModelLike, checkAndType]

theorem weights_type_callable_first_witness :
    (⟨[], [], .returnsModel⟩ : FactoryDef).outcome = .returnsModel ∧
    (weights_type_from_model (.factory ⟨[], [], .returnsModel⟩)
        (⟨[], [[]]⟩ : GState)).1 = .ok (weightsTypeOfSpecs [] []) :=
  ⟨rfl, (weights_type_callable_first ⟨[], [[]]⟩ ⟨[], [], []⟩
      ⟨[], [], .returnsModel⟩).2.2.2.2.2.2.2 rfl⟩

end TffSpec
